import Mathlib

/-!
Shallow embedding of the RustAlgorithm repository:
- src/lru_cache.rs : an LRU cache over a fixed-size hash index (array of bucket
  heads, collision chains via hash_prev/hash_next) and an intrusive recency
  list (list_prev/list_next, list_header/list_tail).  The Rust code stores
  nodes in Rc cells mutated in place; here the heap is an explicit arena
  (the `nodes` list), and every pointer is an `Option Nat` index into it.
  Each operation below mirrors its Rust function statement by statement,
  including the order of the individual field writes.
- src/linked_list.rs : a singly linked LIFO list with push/pop and a count.
-/

namespace RustAlgorithm

/-- 64-bit rotate left on a `Nat` below `2 ^ 64` (SipHash primitive). -/
def rotl64 (x b : Nat) : Nat :=
  ((x <<< b) % 18446744073709551616) ||| (x >>> (64 - b))

/-- 64-bit wrapping addition. -/
def wadd64 (x y : Nat) : Nat :=
  (x + y) % 18446744073709551616

/-- The four 64-bit state words of a SipHash computation. -/
structure SipState where
  v0 : Nat
  v1 : Nat
  v2 : Nat
  v3 : Nat

/-- One SIPROUND, as in Rust's std SipHasher. -/
def sipRound (s : SipState) : SipState :=
  let v0 := wadd64 s.v0 s.v1
  let v1 := rotl64 s.v1 13
  let v1 := v1 ^^^ v0
  let v0 := rotl64 v0 32
  let v2 := wadd64 s.v2 s.v3
  let v3 := rotl64 s.v3 16
  let v3 := v3 ^^^ v2
  let v0 := wadd64 v0 v3
  let v3 := rotl64 v3 21
  let v3 := v3 ^^^ v0
  let v2 := wadd64 v2 v1
  let v1 := rotl64 v1 17
  let v1 := v1 ^^^ v2
  let v2 := rotl64 v2 32
  ⟨v0, v1, v2, v3⟩

/-- Rust's `DefaultHasher` (SipHash-1-3, both keys zero) applied to the four
little-endian bytes that `i32: Hash` feeds it; `n` is the key value as `u32`.
The message is shorter than one block, so the only block processed is the
final one: length 4 in the top byte, the four data bytes below. -/
def defaultHasherI32 (n : Nat) : Nat :=
  let b := (4 <<< 56) ||| (n % 4294967296)
  let s : SipState :=
    ⟨0x736f6d6570736575, 0x646f72616e646f6d, 0x6c7967656e657261, 0x7465646279746573⟩
  let s := { s with v3 := s.v3 ^^^ b }
  let s := sipRound s
  let s := { s with v0 := s.v0 ^^^ b }
  let s := { s with v2 := s.v2 ^^^ 0xff }
  let s := sipRound (sipRound (sipRound s))
  s.v0 ^^^ s.v1 ^^^ s.v2 ^^^ s.v3

/-- The composite hash for `i32` keys: two's-complement `u32` image of the key,
then `DefaultHasher`. -/
def hashI32 (k : Int) : Nat :=
  defaultHasherI32 (k % 4294967296).toNat

/-- `Node<K, V>` of src/lru_cache.rs: key, value and the four links, each a
nullable reference, here an optional arena index. -/
structure Node (K V : Type) where
  key : K
  val : V
  list_prev : Option Nat
  list_next : Option Nat
  hash_prev : Option Nat
  hash_next : Option Nat
deriving Repr, DecidableEq

/-- `LRUCache<K, V, H>` of src/lru_cache.rs.  `hash_indices` is the bucket
array (length `H`); `nodes` is the arena standing for the Rust heap: every
`Rc<RefCell<Node>>` is the index at which the node was allocated. -/
structure LRUCache (K V : Type) where
  max_size : Nat
  total_size : Nat
  list_header : Option Nat
  list_tail : Option Nat
  hash_indices : List (Option Nat)
  nodes : List (Node K V)
deriving Repr, DecidableEq

namespace LRUCache

variable {K V : Type} [DecidableEq K]

/-- `LRUCache::new(max_size)`, with the const generic bucket count `H`
passed explicitly. -/
def new (H : Nat) (max_size : Nat) : LRUCache K V :=
  ⟨max_size, 0, none, none, List.replicate H none, []⟩

/-- In-place mutation of the node at arena index `i` (a `borrow_mut` write);
out-of-range indices cannot arise in the Rust code and leave the state as is. -/
def withNode (s : LRUCache K V) (i : Nat) (f : Node K V → Node K V) : LRUCache K V :=
  match s.nodes[i]? with
  | some nd => { s with nodes := s.nodes.set i (f nd) }
  | none => s

/-- `LRUCache::get_key_hash`: the key's hash reduced modulo `H`. -/
def get_key_hash (H : Nat) (hashK : K → Nat) (key : K) : Nat :=
  hashK key % H

/-- The `while let` loop of `find_node_by_key`: walk a bucket chain along
`hash_next`, comparing keys.  The Rust loop has no built-in bound; the fuel
argument only makes the function total and is chosen larger than any chain. -/
def findFrom (s : LRUCache K V) (key : K) : Nat → Option Nat → Option Nat
  | 0, _ => none
  | _, none => none
  | fuel + 1, some i =>
    match s.nodes[i]? with
    | none => none
    | some nd => if nd.key = key then some i else findFrom s key fuel nd.hash_next

/-- `LRUCache::find_node_by_key`: hash the key, then walk that bucket's chain. -/
def find_node_by_key (H : Nat) (hashK : K → Nat) (s : LRUCache K V) (key : K) :
    Option Nat :=
  let key_hash := get_key_hash H hashK key
  match s.hash_indices[key_hash]? with
  | some slot => findFrom s key (s.nodes.length + 1) slot
  | none => none

/-- `LRUCache::move_node_to_list_head`, field write for field write: read the
node's two list links, splice the neighbours, then relink the node at the
front.  Note the source never touches `list_tail` here. -/
def move_node_to_list_head (s : LRUCache K V) (i : Nat) : LRUCache K V :=
  match s.nodes[i]? with
  | none => s
  | some nd =>
    let prev_node := nd.list_prev
    let next_node := nd.list_next
    let s :=
      match prev_node with
      | some p => withNode s p (fun x => { x with list_next := next_node })
      | none => s
    let s :=
      match next_node with
      | some n => withNode s n (fun x => { x with list_prev := prev_node })
      | none => s
    let s := withNode s i (fun x => { x with list_prev := none })
    let s := withNode s i (fun x => { x with list_next := s.list_header })
    { s with list_header := some i }

/-- `LRUCache::remove_list_tail`: if there is a tail, unlink it from the
recency list and from its bucket chain (bucket slot rewired when the tail was
the bucket head).  The hash links are read only after the list rewiring, as in
the source. -/
def remove_list_tail (H : Nat) (hashK : K → Nat) (s : LRUCache K V) : LRUCache K V :=
  match s.list_tail with
  | none => s
  | some t =>
    let s :=
      match (s.nodes[t]?).bind Node.list_prev with
      | some p =>
        { withNode s p (fun x => { x with list_next := none }) with list_tail := some p }
      | none => { s with list_tail := none }
    match s.nodes[t]? with
    | none => s
    | some tailNd =>
      let prev_node := tailNd.hash_prev
      let next_node := tailNd.hash_next
      let s :=
        match prev_node with
        | some p => withNode s p (fun x => { x with hash_next := next_node })
        | none =>
          let key_hash := get_key_hash H hashK tailNd.key
          { s with hash_indices := s.hash_indices.set key_hash next_node }
      match next_node with
      | some n => withNode s n (fun x => { x with hash_prev := prev_node })
      | none => s

/-- `LRUCache::set`.  Hit: promote the node, overwrite its value.  Miss:
allocate a node (fresh arena index), link it at the recency head, then the
bucket step of lines 82 to 88 of the source: when the bucket already has a
head, only that head's `hash_prev` is written and the slot is re-assigned the
old head; otherwise the slot is set to the new node.  Finally the size
bookkeeping with the eviction attempt. -/
def set (H : Nat) (hashK : K → Nat) (s : LRUCache K V) (key : K) (val : V) :
    LRUCache K V :=
  match find_node_by_key H hashK s key with
  | some i =>
    let s := move_node_to_list_head s i
    withNode s i (fun x => { x with val := val })
  | none =>
    let i := s.nodes.length
    let s := { s with nodes := s.nodes ++ [(⟨key, val, none, none, none, none⟩ : Node K V)] }
    let s :=
      match s.list_header with
      | some h => withNode s h (fun x => { x with list_prev := some i })
      | none => s
    let s := withNode s i (fun x => { x with list_next := s.list_header })
    let s := { s with list_header := some i }
    let key_hash := get_key_hash H hashK key
    let s :=
      match s.hash_indices[key_hash]? with
      | some (some index) =>
        let s := withNode s index (fun x => { x with hash_prev := some i })
        { s with hash_indices := s.hash_indices.set key_hash (some index) }
      | _ => { s with hash_indices := s.hash_indices.set key_hash (some i) }
    if s.total_size ≥ s.max_size then remove_list_tail H hashK s
    else { s with total_size := s.total_size + 1 }

/-- `LRUCache::try_get`: on a hit, promote the node and return a clone of its
value; on a miss return `none` without touching the state. -/
def try_get (H : Nat) (hashK : K → Nat) (s : LRUCache K V) (key : K) :
    LRUCache K V × Option V :=
  match find_node_by_key H hashK s key with
  | some i =>
    let s := move_node_to_list_head s i
    (s, (s.nodes[i]?).map Node.val)
  | none => (s, none)

/-- `LRUCache::get`, the callback variant: the second component collects the
values the callback `then` is invoked with, in order (at most one). -/
def get (H : Nat) (hashK : K → Nat) (s : LRUCache K V) (key : K) :
    LRUCache K V × List V :=
  match find_node_by_key H hashK s key with
  | some i =>
    let s := move_node_to_list_head s i
    (s, ((s.nodes[i]?).map Node.val).toList)
  | none => (s, [])

end LRUCache

/-- `Node<T>` of src/linked_list.rs: one datum and an optional boxed successor. -/
inductive SLNode (T : Type) where
  | mk : T → Option (SLNode T) → SLNode T

/-- `SinglyLinkedList<T>`: an optional head node and the element count. -/
structure SinglyLinkedList (T : Type) where
  head : Option (SLNode T)
  count : Nat

namespace SinglyLinkedList

/-- `SinglyLinkedList::new()`. -/
def new (T : Type) : SinglyLinkedList T := ⟨none, 0⟩

/-- `SinglyLinkedList::push`: the new node takes the old head as successor and
becomes the head; the count increases. -/
def push (s : SinglyLinkedList T) (data : T) : SinglyLinkedList T :=
  ⟨some (.mk data s.head), s.count + 1⟩

/-- `SinglyLinkedList::pop`: take the head if any, make its successor the new
head, decrease the count, return the datum. -/
def pop (s : SinglyLinkedList T) : SinglyLinkedList T × Option T :=
  match s.head with
  | none => (s, none)
  | some (.mk data next) => (⟨next, s.count - 1⟩, some data)

end SinglyLinkedList

/-! ## Concrete states used by the claims -/

/-- C1 scenario: capacity 2, 16 buckets, then set(1,"a"); set(2,"b"); set(3,"c"). -/
def c1_state : LRUCache Int String :=
  LRUCache.set 16 hashI32
    (LRUCache.set 16 hashI32
      (LRUCache.set 16 hashI32 (LRUCache.new 16 2) 1 "a") 2 "b") 3 "c"

/-- C2 scenario: keys 0 and 1 hash to the same bucket (bucket 0 of 16);
set(0,10) then set(1,20) on a capacity-10 cache. -/
def c2_state : LRUCache Int Nat :=
  LRUCache.set 16 hashI32 (LRUCache.set 16 hashI32 (LRUCache.new 16 10) 0 10) 1 20

/-- C3 scenario: capacity 1, then set(1,10); set(2,20). -/
def c3_state : LRUCache Int Nat :=
  LRUCache.set 16 hashI32 (LRUCache.set 16 hashI32 (LRUCache.new 16 1) 1 10) 2 20

/-- C4 scenario: a single set(1,"a") on a fresh capacity-2 cache. -/
def c4_state : LRUCache Int String :=
  LRUCache.set 16 hashI32 (LRUCache.new 16 2) 1 "a"

/-- C5 scenario: colliding keys 0 and 1; set(0,10); set(1,20); set(1,30). -/
def c5_state : LRUCache Int Nat :=
  LRUCache.set 16 hashI32
    (LRUCache.set 16 hashI32
      (LRUCache.set 16 hashI32 (LRUCache.new 16 10) 0 10) 1 20) 1 30

/-- C6 scenario: colliding keys 0 and 1; set(0,1); set(1,2) on a capacity-10
cache, so nothing is ever at risk of eviction. -/
def c6_state : LRUCache Int Nat :=
  LRUCache.set 16 hashI32 (LRUCache.set 16 hashI32 (LRUCache.new 16 10) 0 1) 1 2

/-- C7 scenario: a cache constructed with capacity 0, then set(1,10). -/
def c7_state : LRUCache Int Nat :=
  LRUCache.set 16 hashI32 (LRUCache.new 16 0) 1 10

/-- C9 witness scenario: a fresh capacity-2 cache holding only key 1. -/
def c9_state : LRUCache Int Nat :=
  LRUCache.set 16 hashI32 (LRUCache.new 16 2) 1 10

/-! ## Claims -/

/-- Claim C1 (code bug): with capacity 2 and 16 buckets, after
set(1,"a"); set(2,"b"); set(3,"c") the claim expects key 1 evicted and
get(1) = none.  The code: size is 2 and get(2) returns "b" as claimed, but
get(1) still returns "a" and all three nodes are still in the arena with
list_tail never assigned — set never writes list_tail, so remove_list_tail
always sees none and evicts nothing. -/
theorem c1_no_eviction_after_capacity_exceeded :
    c1_state.total_size = 2 ∧
    (LRUCache.try_get 16 hashI32 c1_state 2).2 = some "b" ∧
    (LRUCache.try_get 16 hashI32 (LRUCache.try_get 16 hashI32 c1_state 2).1 1).2 =
      some "a" ∧
    c1_state.list_tail = none ∧
    c1_state.nodes.length = 3 := by
  decide

/-- Claim C2 (code bug): inserting an absent key into a non-empty bucket is
claimed to make the new node the addressable bucket head reachable by lookup.
The code, on the colliding keys 0 and 1: after set(0,10); set(1,20) the bucket
slot still holds the old head (node 0), the new node's hash_next was never
set, and a lookup of the freshly inserted key 1 returns none while key 0 is
still found. -/
theorem c2_bucket_insert_disconnects_new_node :
    LRUCache.get_key_hash 16 hashI32 (0 : Int) = 0 ∧
    LRUCache.get_key_hash 16 hashI32 (1 : Int) = 0 ∧
    c2_state.hash_indices[0]? = some (some 0) ∧
    (c2_state.nodes[1]?).map Node.hash_next = some none ∧
    (c2_state.nodes[1]?).map Node.key = some 1 ∧
    (LRUCache.try_get 16 hashI32 c2_state 1).2 = none ∧
    (LRUCache.try_get 16 hashI32 c2_state 0).2 = some 10 := by
  decide

/-- Claim C3 (code bug): size is claimed to equal the number of live nodes and
never exceed capacity.  With capacity 1, after set(1,10); set(2,20) the code
keeps total_size = 1, yet two nodes are linked into the structures and both
keys are retrievable — eviction never removes a node, so size undercounts the
live nodes. -/
theorem c3_size_differs_from_live_nodes :
    c3_state.total_size = 1 ∧
    c3_state.nodes.length = 2 ∧
    (LRUCache.try_get 16 hashI32 c3_state 1).2 = some 10 ∧
    (LRUCache.try_get 16 hashI32 c3_state 2).2 = some 20 := by
  decide

/-- Claim C4 (code bug): pushing onto the empty recency list is claimed to
also make the node the tail.  The code after one set on a fresh cache: the
node is the head with list_prev = none and list_next = none as claimed, but
list_tail is still none — set never assigns it. -/
theorem c4_list_tail_not_set_on_push :
    c4_state.list_header = some 0 ∧
    (c4_state.nodes[0]?).map Node.list_prev = some none ∧
    (c4_state.nodes[0]?).map Node.list_next = some none ∧
    c4_state.list_tail = none := by
  decide

/-- Claim C5 (code bug): no two live nodes may share a key.  With the
colliding keys 0 and 1, after set(0,10); set(1,20); set(1,30) the second
set(1,·) cannot find the existing (unreachable) key-1 node and allocates a
second one: the arena keys are [0, 1, 1] and both key-1 nodes are linked into
the recency list from the header. -/
theorem c5_duplicate_key_nodes :
    c5_state.nodes.map Node.key = [0, 1, 1] ∧
    c5_state.list_header = some 2 ∧
    (c5_state.nodes[2]?).map Node.list_next = some (some 1) ∧
    (c5_state.nodes[1]?).map Node.list_next = some (some 0) := by
  decide

/-- Claim C6 (code bug): get is claimed to return the last value set for any
key inserted and not yet evicted.  With the colliding keys 0 and 1, after
set(0,1); set(1,2) both nodes are still present (nothing was evicted), yet
get(1) returns none because the key-1 node is unreachable from its bucket
slot. -/
theorem c6_round_trip_fails_on_collision :
    c6_state.nodes.map Node.key = [0, 1] ∧
    (c6_state.nodes[1]?).map Node.val = some 2 ∧
    (LRUCache.try_get 16 hashI32 c6_state 1).2 = none := by
  decide

/-- Counterexample to claim C7: construction with capacity 0 does not fail —
new(0) yields a working cache, and a set followed by get on it even stores and
returns a value. -/
theorem c7_zero_capacity_construction_succeeds :
    (LRUCache.new 16 0 : LRUCache Int Nat).max_size = 0 ∧
    (LRUCache.new 16 0 : LRUCache Int Nat).total_size = 0 ∧
    (LRUCache.try_get 16 hashI32 c7_state 1).2 = some 10 := by
  decide

/-- Claim C7, amended: construction performs no validation and cannot fail;
for every bucket count and every capacity, including 0, new returns the
initialized empty cache. -/
theorem c7_new_never_fails (K V : Type) (H cap : Nat) :
    (LRUCache.new H cap : LRUCache K V) =
      ⟨cap, 0, none, none, List.replicate H none, []⟩ :=
  rfl

/-- Claim C8 (confirmed): the callback-style get and the optional-returning
try_get are the same operation: from any state and key they produce the same
resulting cache state, try_get returns some v exactly when the callback is
invoked once with v, and returns none exactly when the callback is invoked
zero times. -/
theorem c8_get_try_get_equivalent {K V : Type} [DecidableEq K] (H : Nat)
    (hashK : K → Nat) (s : LRUCache K V) (key : K) :
    (LRUCache.get H hashK s key).1 = (LRUCache.try_get H hashK s key).1 ∧
    (∀ v : V, (LRUCache.try_get H hashK s key).2 = some v ↔
      (LRUCache.get H hashK s key).2 = [v]) ∧
    ((LRUCache.try_get H hashK s key).2 = none ↔
      (LRUCache.get H hashK s key).2 = []) := by
  unfold LRUCache.get LRUCache.try_get
  cases LRUCache.find_node_by_key H hashK s key with
  | none => simp
  | some i =>
    dsimp only
    cases (LRUCache.move_node_to_list_head s i).nodes[i]? <;> simp

/-- Claim C9 (confirmed): get on a key the cache's lookup does not find
returns none and leaves the whole cache state — size, recency order and hash
index — unchanged, in both API shapes. -/
theorem c9_miss_leaves_cache_unchanged {K V : Type} [DecidableEq K] (H : Nat)
    (hashK : K → Nat) (s : LRUCache K V) (key : K)
    (h : LRUCache.find_node_by_key H hashK s key = none) :
    LRUCache.try_get H hashK s key = (s, none) ∧
    LRUCache.get H hashK s key = (s, []) := by
  unfold LRUCache.try_get LRUCache.get
  rw [h]
  exact ⟨rfl, rfl⟩

/-- Witness for C9: key 2 is absent from a cache holding only key 1, its
lookup misses, and get on it returns none leaving the state unchanged. -/
theorem c9_miss_leaves_cache_unchanged_witness :
    LRUCache.find_node_by_key 16 hashI32 c9_state 2 = none ∧
    LRUCache.try_get 16 hashI32 c9_state 2 = (c9_state, none) ∧
    LRUCache.get 16 hashI32 c9_state 2 = (c9_state, []) :=
  ⟨by decide,
   (c9_miss_leaves_cache_unchanged 16 hashI32 c9_state 2 (by decide)).1,
   (c9_miss_leaves_cache_unchanged 16 hashI32 c9_state 2 (by decide)).2⟩

/-- Claim C10 (confirmed): push then pop returns the pushed element and
restores the exact previous list (same elements, same order, same count); pop
on an empty list returns none and leaves the count at 0. -/
theorem c10_push_pop_roundtrip {T : Type} (s : SinglyLinkedList T) (x : T) :
    SinglyLinkedList.pop (SinglyLinkedList.push s x) = (s, some x) ∧
    (s.head = none → s.count = 0 →
      SinglyLinkedList.pop s = (s, none) ∧
      (SinglyLinkedList.pop s).1.count = 0) := by
  constructor
  · unfold SinglyLinkedList.push SinglyLinkedList.pop
    simp
  · intro h1 h2
    unfold SinglyLinkedList.pop
    rw [h1]
    exact ⟨rfl, h2⟩

/-- Witness for C10: on the empty Nat list, push 5 then pop returns 5 and the
empty list; pop of the empty list is none with count 0. -/
theorem c10_push_pop_roundtrip_witness :
    SinglyLinkedList.pop (SinglyLinkedList.push (SinglyLinkedList.new Nat) 5) =
      (SinglyLinkedList.new Nat, some 5) ∧
    (SinglyLinkedList.pop (SinglyLinkedList.new Nat) =
      (SinglyLinkedList.new Nat, none) ∧
      (SinglyLinkedList.pop (SinglyLinkedList.new Nat)).1.count = 0) :=
  ⟨(c10_push_pop_roundtrip (SinglyLinkedList.new Nat) 5).1,
   (c10_push_pop_roundtrip (SinglyLinkedList.new Nat) 5).2 rfl rfl⟩

end RustAlgorithm
